import Mathlib

/-!
Shallow embedding of the CDC observation layer of TiKV, from
components/cdc/src/observer.rs: the subscription registry of CdcObserver
(subscribe_region, unsubscribe_region, is_subscribed) and its three hooks
(on_flush_applied_cmd_batch, on_role_change, on_region_changed).

The registry is a map from region id to ObserveId; the scheduler is a FIFO
queue, embedded as the list of tasks enqueued so far; the memory quota is a
byte counter.  Types that the observer consumes from other crates of the
repository (MemoryQuota from tikv_util, ObserveLevel / CmdBatch from
raftstore) are modelled from the spec, as noted on each definition.
-/

/-- A subscription generation token (raftstore ObserveId): compared by
equality only, never derived from the region id. -/
structure ObserveId where
  val : Nat
deriving DecidableEq, Repr

abbrev RegionId := Nat

/-- The registry of observed regions: region id to the ObserveId currently
registered, none meaning unsubscribed.  Embeds the HashMap behind the
RwLock in CdcObserver.observe_regions. -/
abbrev ObserveRegistry := RegionId → Option ObserveId

/-- Modelled from the spec: the observation-level hierarchy of raftstore
(not under src/); levels form a fidelity hierarchy with All as the top
tier, the only one consumed by this core. -/
inductive ObserveLevel where
  | nothing
  | lockRelated
  | all
deriving DecidableEq, Repr

def ObserveLevel.toNat : ObserveLevel → Nat
  | ObserveLevel.nothing => 0
  | ObserveLevel.lockRelated => 1
  | ObserveLevel.all => 2

instance : LT ObserveLevel := ⟨fun a b => a.toNat < b.toNat⟩

instance : LE ObserveLevel := ⟨fun a b => a.toNat ≤ b.toNat⟩

instance (a b : ObserveLevel) : Decidable (a < b) :=
  inferInstanceAs (Decidable (a.toNat < b.toNat))

instance (a b : ObserveLevel) : Decidable (a ≤ b) :=
  inferInstanceAs (Decidable (a.toNat ≤ b.toNat))

/-- Modelled from the spec: a CommandBatch of raftstore (not under src/) is
an ordered sequence of applied write commands for one region at one
observation level, with a byte size for quota accounting; each entry of
cmds is the byte size of one command. -/
structure CmdBatch where
  level : ObserveLevel
  cmds : List Nat
deriving DecidableEq, Repr

/-- CmdBatch::is_empty: whether the batch holds no command. -/
def CmdBatch.is_empty (cb : CmdBatch) : Bool := cb.cmds.isEmpty

/-- CmdBatch::size: total byte size of the commands of the batch. -/
def CmdBatch.size (cb : CmdBatch) : Nat := cb.cmds.sum

/-- Modelled from the spec: MemoryQuota of tikv_util (not under src/), a
byte counter with a configured bound; forced allocation always increments
and returns the new total, try-allocation increments only if the result
would not exceed the bound. -/
structure MemoryQuota where
  capacity : Nat
  in_use : Nat
deriving DecidableEq, Repr

/-- Forced allocation: always succeeds, regardless of current usage. -/
def MemoryQuota.alloc_force (q : MemoryQuota) (bytes : Nat) : MemoryQuota × Nat :=
  ({ q with in_use := q.in_use + bytes }, q.in_use + bytes)

/-- Try allocation: fails and leaves the counter unchanged once usage would
exceed the bound. -/
def MemoryQuota.alloc (q : MemoryQuota) (bytes : Nat) : Option MemoryQuota :=
  if q.in_use + bytes ≤ q.capacity then
    some { q with in_use := q.in_use + bytes }
  else
    none

/-- A peer descriptor (kvproto metapb Peer). -/
structure Peer where
  id : Nat
  store_id : Nat
deriving DecidableEq, Repr

/-- A region descriptor (kvproto metapb Region): id and current peer list. -/
structure Region where
  id : RegionId
  peers : List Peer
deriving DecidableEq, Repr

/-- raft StateRole. -/
inductive StateRole where
  | follower
  | candidate
  | leader
  | preCandidate
deriving DecidableEq, Repr

/-- raft INVALID_ID. -/
def INVALID_ID : Nat := 0

/-- A role-change event (raftstore RoleChange): the new role plus the
best-effort leader hints carried by the event. -/
structure RoleChange where
  state : StateRole
  leader_id : Nat
  prev_lead_transferee : Nat
  vote : Nat
deriving DecidableEq, Repr

/-- raftstore RegionChangeReason (the reasons of an Update event). -/
inductive RegionChangeReason where
  | changePeer
  | split
  | prepareMerge
  | commitMerge
  | rollbackMerge
deriving DecidableEq, Repr

/-- raftstore RegionChangeEvent. -/
inductive RegionChangeEvent where
  | Create
  | Update (reason : RegionChangeReason)
  | Destroy
  | UpdateBuckets (n : Nat)
deriving DecidableEq, Repr

/-- The structured failure reason carried by a deregister signal
(RaftStoreError wrapped in CdcError::request). -/
inductive CdcError where
  | notLeader (region_id : RegionId) (leader : Option Peer)
  | regionNotFound (region_id : RegionId)
deriving DecidableEq, Repr

/-- A task enqueued on the FIFO scheduler (endpoint Task): either a
delivery task of command batches or a deregister signal. -/
inductive CdcTask where
  | MultiBatch (multi : List CmdBatch)
  | Deregister (region_id : RegionId) (observe_id : ObserveId) (err : CdcError)
deriving DecidableEq, Repr

/-- CdcObserver state: the FIFO scheduler embedded as the list of tasks
enqueued so far (in order), the memory quota, and the registry of observed
regions. -/
structure CdcObserver where
  sched : List CdcTask
  memory_quota : MemoryQuota
  observe_regions : ObserveRegistry

/-- CdcObserver::subscribe_region: unconditionally installs observe_id for
the region, returning the previous ObserveId if there was one (HashMap
insert). -/
def subscribe_region (regions : ObserveRegistry) (region_id : RegionId)
    (observe_id : ObserveId) : Option ObserveId × ObserveRegistry :=
  (regions region_id,
   fun r => if r = region_id then some observe_id else regions r)

/-- CdcObserver::unsubscribe_region: to avoid the ABA problem, removes the
entry only when the stored ObserveId equals observe_id, returning the
removed id; otherwise returns none and leaves the registry unchanged. -/
def unsubscribe_region (regions : ObserveRegistry) (region_id : RegionId)
    (observe_id : ObserveId) : Option ObserveId × ObserveRegistry :=
  match regions region_id with
  | some oid =>
    if oid = observe_id then
      (some oid, fun r => if r = region_id then none else regions r)
    else
      (none, regions)
  | none => (none, regions)

/-- CdcObserver::is_subscribed: read-only lookup of the registered
ObserveId of a region. -/
def is_subscribed (regions : ObserveRegistry) (region_id : RegionId) :
    Option ObserveId :=
  regions region_id

/-- The filter of on_flush_applied_cmd_batch: keep the batches whose own
level equals All and which are non-empty. -/
def surviving (cmd_batches : List CmdBatch) : List CmdBatch :=
  cmd_batches.filter (fun cb => cb.level == ObserveLevel.all && !cb.is_empty)

/-- The total byte size allocated by on_flush_applied_cmd_batch: the sum of
the sizes of the batches it forwards. -/
def totalSize (cmd_batches : List CmdBatch) : Nat :=
  (cmd_batches.map CmdBatch.size).sum

/-- CdcObserver::on_flush_applied_cmd_batch.  The entry assertion that
cmd_batches is non-empty is embedded as the none result (a panic); the
snapshot bound into the old-value resolver closure has no observable
effect on the state modelled here.  Otherwise: return unchanged when
max_level is below All or no batch survives the filter; else force-allocate
the total size of the surviving batches on the quota and enqueue one
MultiBatch task holding them in order. -/
def on_flush_applied_cmd_batch (ob : CdcObserver) (max_level : ObserveLevel)
    (cmd_batches : List CmdBatch) : Option CdcObserver :=
  if cmd_batches.isEmpty then
    none
  else if max_level < ObserveLevel.all then
    some ob
  else
    let survivors := surviving cmd_batches
    if survivors.isEmpty then
      some ob
    else
      let size := totalSize survivors
      some { ob with
        memory_quota := (ob.memory_quota.alloc_force size).1,
        sched := ob.sched ++ [CdcTask.MultiBatch survivors] }

/-- The new-leader candidate computation of on_role_change: the explicit
leader_id when valid, else prev_lead_transferee when it equals vote, else
none. -/
def candidate_leader_id (rc : RoleChange) : Option Nat :=
  if rc.leader_id ≠ INVALID_ID then
    some rc.leader_id
  else if rc.prev_lead_transferee = rc.vote then
    some rc.prev_lead_transferee
  else
    none

/-- The leader resolution of on_role_change: the candidate id resolved
against the peer list of the region. -/
def resolve_leader (rc : RoleChange) (region : Region) : Option Peer :=
  (candidate_leader_id rc).bind (fun x => region.peers.find? (fun p => p.id == x))

/-- CdcObserver::on_role_change: when the new role is not leader and the
region is subscribed, enqueue a Deregister task carrying the region id, the
observed ObserveId and a NotLeader error with the resolved leader; never
touches the registry. -/
def on_role_change (ob : CdcObserver) (region : Region) (rc : RoleChange) :
    CdcObserver :=
  if rc.state ≠ StateRole.leader then
    match is_subscribed ob.observe_regions region.id with
    | some observe_id =>
      { ob with sched := ob.sched ++
          [CdcTask.Deregister region.id observe_id
            (CdcError.notLeader region.id (resolve_leader rc region))] }
    | none => ob
  else
    ob

/-- CdcObserver::on_region_changed: on Destroy, Update(Split) or
Update(CommitMerge) of a subscribed region, enqueue a Deregister task with
a RegionNotFound error; every other event, or an unsubscribed region, is a
no-op. -/
def on_region_changed (ob : CdcObserver) (region : Region)
    (event : RegionChangeEvent) : CdcObserver :=
  match event with
  | RegionChangeEvent.Destroy
  | RegionChangeEvent.Update RegionChangeReason.split
  | RegionChangeEvent.Update RegionChangeReason.commitMerge =>
    (match is_subscribed ob.observe_regions region.id with
     | some observe_id =>
       { ob with sched := ob.sched ++
           [CdcTask.Deregister region.id observe_id
             (CdcError.regionNotFound region.id)] }
     | none => ob)
  | _ => ob

/-- Concrete values used by the witnesses below. -/
def oidA : ObserveId := ⟨1⟩

def oidB : ObserveId := ⟨2⟩

def reg0 : ObserveRegistry := fun _ => none

def regSub : ObserveRegistry := fun r => if r = 1 then some oidA else none

def q0 : MemoryQuota := ⟨100, 0⟩

def qFull : MemoryQuota := ⟨10, 10⟩

def ob0 : CdcObserver := ⟨[], q0, reg0⟩

def obSub : CdcObserver := ⟨[], q0, regSub⟩

def obSubFull : CdcObserver := ⟨[], qFull, regSub⟩

def cbAll : CmdBatch := ⟨ObserveLevel.all, [3, 4]⟩

def cbLock : CmdBatch := ⟨ObserveLevel.lockRelated, [5]⟩

def cbEmptyAll : CmdBatch := ⟨ObserveLevel.all, []⟩

def peer2 : Peer := ⟨2, 2⟩

def peer3 : Peer := ⟨3, 3⟩

def region1 : Region := ⟨1, [peer2, peer3]⟩

example :
    on_flush_applied_cmd_batch ob0 ObserveLevel.all [cbAll, cbLock, cbEmptyAll] =
    some { sched := [CdcTask.MultiBatch [cbAll]],
           memory_quota := ⟨100, 7⟩, observe_regions := reg0 } := by
  rfl

/-- If some batch survives the filter, one of the batches has level All and
is non-empty. -/
lemma exists_surviving_all (cmd_batches : List CmdBatch)
    (hsurv : surviving cmd_batches ≠ []) :
    ∃ cb ∈ cmd_batches, cb.level = ObserveLevel.all ∧ cb.is_empty = false := by
  obtain ⟨cb, hcb⟩ := List.exists_mem_of_ne_nil _ hsurv
  rw [surviving, List.mem_filter] at hcb
  obtain ⟨hmem, hpred⟩ := hcb
  rw [Bool.and_eq_true, beq_iff_eq, Bool.not_eq_true'] at hpred
  exact ⟨cb, hmem, hpred.1, hpred.2⟩

/-- Under the contract that max_level bounds the levels of the batches, a
non-empty filter forces max_level to be at least All. -/
lemma max_level_not_lt_all (cmd_batches : List CmdBatch) (max_level : ObserveLevel)
    (hmax : ∀ cb ∈ cmd_batches, cb.level ≤ max_level)
    (hsurv : surviving cmd_batches ≠ []) :
    ¬ max_level < ObserveLevel.all := by
  obtain ⟨cb, hmem, hl, _⟩ := exists_surviving_all cmd_batches hsurv
  have hle : (ObserveLevel.all).toNat ≤ max_level.toNat := by
    have := hmax cb hmem
    rw [hl] at this
    exact this
  intro hlt
  have hlt2 : max_level.toNat < (ObserveLevel.all).toNat := hlt
  omega

/-- Evaluation of on_flush_applied_cmd_batch on the allocating path. -/
lemma on_flush_run (ob : CdcObserver) (max_level : ObserveLevel)
    (cmd_batches : List CmdBatch)
    (hne : cmd_batches ≠ [])
    (hlt : ¬ max_level < ObserveLevel.all)
    (hsurv : surviving cmd_batches ≠ []) :
    on_flush_applied_cmd_batch ob max_level cmd_batches =
      some { ob with
        memory_quota := ⟨ob.memory_quota.capacity,
          ob.memory_quota.in_use + totalSize (surviving cmd_batches)⟩,
        sched := ob.sched ++ [CdcTask.MultiBatch (surviving cmd_batches)] } := by
  have h1 : cmd_batches.isEmpty = false := by
    cases cmd_batches with
    | nil => exact absurd rfl hne
    | cons a l => rfl
  have h3 : (surviving cmd_batches).isEmpty = false := by
    cases hcb : surviving cmd_batches with
    | nil => exact absurd hcb hsurv
    | cons a l => rfl
  simp [on_flush_applied_cmd_batch, h1, hlt, h3, MemoryQuota.alloc_force]

/-- Evaluation of on_flush_applied_cmd_batch on the two early-return
paths. -/
lemma on_flush_noop (ob : CdcObserver) (max_level : ObserveLevel)
    (cmd_batches : List CmdBatch)
    (hne : cmd_batches ≠ [])
    (h : max_level < ObserveLevel.all ∨ surviving cmd_batches = []) :
    on_flush_applied_cmd_batch ob max_level cmd_batches = some ob := by
  have h1 : cmd_batches.isEmpty = false := by
    cases cmd_batches with
    | nil => exact absurd rfl hne
    | cons a l => rfl
  cases h with
  | inl hlt => simp [on_flush_applied_cmd_batch, h1, hlt]
  | inr hsurv => simp [on_flush_applied_cmd_batch, h1, hsurv]

/-- Claim C1: unsubscribe_region removes the entry and returns the removed
id exactly when the registered id equals the requested one; otherwise it
returns none and leaves the registry unchanged; in particular after
subscribe(R, A) with A different from B, unsubscribe(R, B) returns none and
the lookup of R still yields A. -/
theorem unsubscribe_region_aba_safe (regions : ObserveRegistry) (R : RegionId)
    (B : ObserveId) :
    (regions R = some B →
      unsubscribe_region regions R B =
        (some B, fun r => if r = R then none else regions r)) ∧
    (regions R ≠ some B →
      unsubscribe_region regions R B = (none, regions)) ∧
    (∀ A : ObserveId, A ≠ B →
      (unsubscribe_region (subscribe_region regions R A).2 R B).1 = none ∧
      (unsubscribe_region (subscribe_region regions R A).2 R B).2 R = some A) := by
  refine ⟨?_, ?_, ?_⟩
  · intro h
    unfold unsubscribe_region
    rw [h]
    simp
  · intro h
    unfold unsubscribe_region
    cases hR : regions R with
    | none => rfl
    | some oid =>
      have hne : oid ≠ B := by
        intro e
        exact h (by rw [hR, e])
      simp [hne]
  · intro A hAB
    have hlook : (subscribe_region regions R A).2 R = some A := by
      simp [subscribe_region]
    constructor
    · unfold unsubscribe_region
      rw [hlook]
      simp [hAB]
    · unfold unsubscribe_region
      rw [hlook]
      simp [hAB, hlook]

/-- Witness for C1 at a concrete registry holding oidA for region 1. -/
theorem unsubscribe_region_aba_safe_witness :
    unsubscribe_region regSub 1 oidB = (none, regSub) ∧
    (unsubscribe_region (subscribe_region reg0 1 oidA).2 1 oidB).1 = none ∧
    (unsubscribe_region (subscribe_region reg0 1 oidA).2 1 oidB).2 1 = some oidA :=
  ⟨(unsubscribe_region_aba_safe regSub 1 oidB).2.1 (by decide),
   (unsubscribe_region_aba_safe reg0 1 oidB).2.2 oidA (by decide)⟩

/-- Claim C8: neither the role-change hook nor the region-lifecycle hook
mutates the subscription registry. -/
theorem hooks_preserve_registry (ob : CdcObserver) (region : Region)
    (rc : RoleChange) (event : RegionChangeEvent) :
    (on_role_change ob region rc).observe_regions = ob.observe_regions ∧
    (on_region_changed ob region event).observe_regions = ob.observe_regions := by
  constructor
  · unfold on_role_change
    split
    · split <;> rfl
    · rfl
  · unfold on_region_changed
    split <;> first
      | rfl
      | (split <;> rfl)

/-- Claim C9: under the precondition that the batch list is non-empty, the
entry assertion of on_flush_applied_cmd_batch holds and the hook runs to
completion without panic. -/
theorem flush_no_panic_on_nonempty (ob : CdcObserver) (max_level : ObserveLevel)
    (cmd_batches : List CmdBatch) (hne : cmd_batches ≠ []) :
    (on_flush_applied_cmd_batch ob max_level cmd_batches).isSome := by
  by_cases hlt : max_level < ObserveLevel.all
  · rw [on_flush_noop ob max_level cmd_batches hne (Or.inl hlt)]
    rfl
  · by_cases hsurv : surviving cmd_batches = []
    · rw [on_flush_noop ob max_level cmd_batches hne (Or.inr hsurv)]
      rfl
    · rw [on_flush_run ob max_level cmd_batches hne hlt hsurv]
      rfl

/-- Witness for C9 at a concrete one-batch flush. -/
theorem flush_no_panic_on_nonempty_witness :
    (on_flush_applied_cmd_batch ob0 ObserveLevel.all [cbAll]).isSome :=
  flush_no_panic_on_nonempty ob0 ObserveLevel.all [cbAll] (by decide)

/-- Claim C2: a flush event whose surviving batches (own level All and
non-empty) are not empty increases quota usage by exactly their total byte
size through the forced allocation and enqueues exactly one MultiBatch
task holding exactly those batches in their original relative order, under
the contract that max_level bounds the levels of the batches. -/
theorem flush_allocates_and_enqueues (ob : CdcObserver) (max_level : ObserveLevel)
    (cmd_batches : List CmdBatch)
    (hne : cmd_batches ≠ [])
    (hmax : ∀ cb ∈ cmd_batches, cb.level ≤ max_level)
    (hsurv : surviving cmd_batches ≠ []) :
    ∃ ob', on_flush_applied_cmd_batch ob max_level cmd_batches = some ob' ∧
      ob'.memory_quota.in_use =
        ob.memory_quota.in_use + totalSize (surviving cmd_batches) ∧
      ob'.memory_quota.capacity = ob.memory_quota.capacity ∧
      ob'.sched = ob.sched ++ [CdcTask.MultiBatch (surviving cmd_batches)] ∧
      ob'.observe_regions = ob.observe_regions := by
  have hlt := max_level_not_lt_all cmd_batches max_level hmax hsurv
  exact ⟨_, on_flush_run ob max_level cmd_batches hne hlt hsurv, rfl, rfl, rfl, rfl⟩

/-- Witness for C2: a three-batch flush of which only one batch survives. -/
theorem flush_allocates_and_enqueues_witness :
    ∃ ob', on_flush_applied_cmd_batch ob0 ObserveLevel.all
        [cbAll, cbLock, cbEmptyAll] = some ob' ∧
      ob'.memory_quota.in_use =
        ob0.memory_quota.in_use + totalSize (surviving [cbAll, cbLock, cbEmptyAll]) ∧
      ob'.memory_quota.capacity = ob0.memory_quota.capacity ∧
      ob'.sched = ob0.sched ++
        [CdcTask.MultiBatch (surviving [cbAll, cbLock, cbEmptyAll])] ∧
      ob'.observe_regions = ob0.observe_regions :=
  flush_allocates_and_enqueues ob0 ObserveLevel.all [cbAll, cbLock, cbEmptyAll]
    (by decide) (by decide) (by decide)

/-- Claim C3: a flush event whose maximum level is below All, or in which
no batch is both of level All and non-empty, leaves the observer state
(scheduler queue and quota usage included) unchanged. -/
theorem flush_below_all_or_empty_noop (ob : CdcObserver) (max_level : ObserveLevel)
    (cmd_batches : List CmdBatch)
    (hne : cmd_batches ≠ [])
    (h : max_level < ObserveLevel.all ∨ surviving cmd_batches = []) :
    on_flush_applied_cmd_batch ob max_level cmd_batches = some ob :=
  on_flush_noop ob max_level cmd_batches hne h

/-- Witness for C3: a flush of one lock-related batch. -/
theorem flush_below_all_or_empty_noop_witness :
    on_flush_applied_cmd_batch ob0 ObserveLevel.lockRelated [cbLock] = some ob0 :=
  flush_below_all_or_empty_noop ob0 ObserveLevel.lockRelated [cbLock]
    (by decide) (Or.inl (by decide))

/-- Claim C7: even when quota usage already equals or exceeds the
configured bound, a flush with surviving All-level batches still performs
its forced allocation and still enqueues its delivery task. -/
theorem flush_forced_alloc_over_quota (ob : CdcObserver) (max_level : ObserveLevel)
    (cmd_batches : List CmdBatch)
    (_hquota : ob.memory_quota.capacity ≤ ob.memory_quota.in_use)
    (hne : cmd_batches ≠ [])
    (hmax : ∀ cb ∈ cmd_batches, cb.level ≤ max_level)
    (hsurv : surviving cmd_batches ≠ []) :
    ∃ ob', on_flush_applied_cmd_batch ob max_level cmd_batches = some ob' ∧
      ob'.memory_quota.in_use =
        ob.memory_quota.in_use + totalSize (surviving cmd_batches) ∧
      ob'.sched = ob.sched ++ [CdcTask.MultiBatch (surviving cmd_batches)] := by
  have hlt := max_level_not_lt_all cmd_batches max_level hmax hsurv
  exact ⟨_, on_flush_run ob max_level cmd_batches hne hlt hsurv, rfl, rfl⟩

/-- Witness for C7: a flush on an observer whose quota is fully consumed. -/
theorem flush_forced_alloc_over_quota_witness :
    ∃ ob', on_flush_applied_cmd_batch obSubFull ObserveLevel.all [cbAll] = some ob' ∧
      ob'.memory_quota.in_use =
        obSubFull.memory_quota.in_use + totalSize (surviving [cbAll]) ∧
      ob'.sched = obSubFull.sched ++ [CdcTask.MultiBatch (surviving [cbAll])] :=
  flush_forced_alloc_over_quota obSubFull ObserveLevel.all [cbAll]
    (by decide) (by decide) (by decide) (by decide)

/-- Concrete role-change events used by the witnesses. -/
def rcFollower2 : RoleChange := ⟨StateRole.follower, 2, 0, 0⟩

def rcFollower3 : RoleChange := ⟨StateRole.follower, 0, 3, 3⟩

def rcFollower0 : RoleChange := ⟨StateRole.follower, 0, 0, 0⟩

/-- Claim C4: on a role change, a Deregister task carrying the region id,
the observed ObserveId and a not-leader reason is enqueued exactly when the
new role is not leader and the region has a registered ObserveId; a change
to leader, or any change on an unsubscribed region, leaves the observer
unchanged. -/
theorem role_change_deregister_iff (ob : CdcObserver) (region : Region)
    (rc : RoleChange) :
    (rc.state ≠ StateRole.leader →
      ∀ oid, is_subscribed ob.observe_regions region.id = some oid →
        (on_role_change ob region rc).sched =
          ob.sched ++ [CdcTask.Deregister region.id oid
            (CdcError.notLeader region.id (resolve_leader rc region))]) ∧
    ((rc.state = StateRole.leader ∨
      is_subscribed ob.observe_regions region.id = none) →
      on_role_change ob region rc = ob) := by
  constructor
  · intro hst oid hsub
    unfold on_role_change
    rw [if_pos hst, hsub]
  · intro h
    unfold on_role_change
    cases h with
    | inl hst =>
      rw [if_neg (show ¬rc.state ≠ StateRole.leader from fun hne => hne hst)]
    | inr hsub =>
      split
      · rw [hsub]
      · rfl

/-- Witness for C4: a follower transition on a subscribed region enqueues
the signal; the same transition on an unsubscribed observer is a no-op. -/
theorem role_change_deregister_iff_witness :
    (on_role_change obSub region1 rcFollower2).sched =
      obSub.sched ++ [CdcTask.Deregister region1.id oidA
        (CdcError.notLeader region1.id (resolve_leader rcFollower2 region1))] ∧
    on_role_change ob0 region1 rcFollower2 = ob0 :=
  ⟨(role_change_deregister_iff obSub region1 rcFollower2).1 (by decide) oidA
      (by decide),
   (role_change_deregister_iff ob0 region1 rcFollower2).2 (Or.inr (by decide))⟩

/-- Written from the words of the spec, section 4.3, for comparison with
the code: the new-leader candidate in priority order (explicit valid leader
id; else previous lead transferee when it equals the vote; else unknown),
resolved to a peer descriptor by scanning the peer list of the region, the
leader omitted when no peer matches. -/
def spec_new_leader_descriptor (rc : RoleChange) (region : Region) : Option Peer :=
  let candidate : Option Nat :=
    if rc.leader_id ≠ INVALID_ID then
      some rc.leader_id
    else if rc.prev_lead_transferee = rc.vote then
      some rc.prev_lead_transferee
    else
      none
  match candidate with
  | some c =>
    (match region.peers.find? (fun p => p.id == c) with
     | some p => some p
     | none => none)
  | none => none

/-- The leader computed by the code equals the leader the spec describes. -/
lemma resolve_leader_eq_spec (rc : RoleChange) (region : Region) :
    resolve_leader rc region = spec_new_leader_descriptor rc region := by
  unfold resolve_leader candidate_leader_id spec_new_leader_descriptor
  by_cases h1 : rc.leader_id ≠ INVALID_ID
  · rw [if_pos h1]
    cases hf : region.peers.find? (fun p => p.id == rc.leader_id) <;> simp [hf]
  · rw [if_neg h1]
    by_cases h2 : rc.prev_lead_transferee = rc.vote
    · rw [if_pos h2]
      cases hf : region.peers.find? (fun p => p.id == rc.prev_lead_transferee) <;>
        simp [hf]
    · rw [if_neg h2]
      rfl

/-- Claim C5: every not-leader Deregister signal carries the new-leader
descriptor chosen in the priority order of the spec and resolved against
the current peer list of the region. -/
theorem role_change_leader_resolution (ob : CdcObserver) (region : Region)
    (rc : RoleChange)
    (hst : rc.state ≠ StateRole.leader) (oid : ObserveId)
    (hsub : is_subscribed ob.observe_regions region.id = some oid) :
    (on_role_change ob region rc).sched =
      ob.sched ++ [CdcTask.Deregister region.id oid
        (CdcError.notLeader region.id (spec_new_leader_descriptor rc region))] := by
  unfold on_role_change
  rw [if_pos hst, hsub, resolve_leader_eq_spec]

/-- Witness for C5: a follower transition whose previous lead transferee
equals the vote resolves to peer 3. -/
theorem role_change_leader_resolution_witness :
    (on_role_change obSub region1 rcFollower3).sched =
      obSub.sched ++ [CdcTask.Deregister region1.id oidA
        (CdcError.notLeader region1.id
          (spec_new_leader_descriptor rcFollower3 region1))] :=
  role_change_leader_resolution obSub region1 rcFollower3 (by decide) oidA
    (by decide)

/-- Claim C10: with an invalid explicit leader id and the previous lead
transferee equal to the vote (both possibly the invalid id), the enqueued
signal identifies the peer whose id equals the transferee when one exists
in the peer list, and omits the leader otherwise; in particular with no
matching peer the signal reports no leader. -/
theorem role_change_invalid_id_transferee (ob : CdcObserver) (region : Region)
    (rc : RoleChange)
    (hst : rc.state ≠ StateRole.leader) (oid : ObserveId)
    (hsub : is_subscribed ob.observe_regions region.id = some oid)
    (hl : rc.leader_id = INVALID_ID)
    (ht : rc.prev_lead_transferee = rc.vote) :
    (on_role_change ob region rc).sched =
      ob.sched ++ [CdcTask.Deregister region.id oid
        (CdcError.notLeader region.id
          (region.peers.find? (fun p => p.id == rc.prev_lead_transferee)))] ∧
    ((∀ p ∈ region.peers, p.id ≠ rc.prev_lead_transferee) →
      (on_role_change ob region rc).sched =
        ob.sched ++ [CdcTask.Deregister region.id oid
          (CdcError.notLeader region.id none)]) := by
  have hres : resolve_leader rc region =
      region.peers.find? (fun p => p.id == rc.prev_lead_transferee) := by
    unfold resolve_leader candidate_leader_id
    rw [if_neg (show ¬rc.leader_id ≠ INVALID_ID from fun hne => hne hl), if_pos ht]
    rfl
  constructor
  · unfold on_role_change
    rw [if_pos hst, hsub, hres]
  · intro hno
    have hfind : region.peers.find? (fun p => p.id == rc.prev_lead_transferee)
        = none := by
      rw [List.find?_eq_none]
      intro p hp
      simpa using hno p hp
    unfold on_role_change
    rw [if_pos hst, hsub, hres, hfind]

/-- Witness for C10: all three leader hints are the invalid id and no peer
carries it, so the signal reports no leader. -/
theorem role_change_invalid_id_transferee_witness :
    (on_role_change obSub region1 rcFollower0).sched =
      obSub.sched ++ [CdcTask.Deregister region1.id oidA
        (CdcError.notLeader region1.id none)] :=
  (role_change_invalid_id_transferee obSub region1 rcFollower0 (by decide) oidA
    (by decide) (by decide) (by decide)).2 (by decide)

/-- Claim C6: on a region-lifecycle event, exactly one Deregister task with
a region-not-found reason and the observed ObserveId is enqueued exactly
when the event is Destroy or Update with reason Split or CommitMerge and
the region has a registered ObserveId; any other event, or a qualifying
event on an unsubscribed region, leaves the observer unchanged. -/
theorem region_change_deregister_iff (ob : CdcObserver) (region : Region)
    (event : RegionChangeEvent) :
    ((event = RegionChangeEvent.Destroy ∨
      event = RegionChangeEvent.Update RegionChangeReason.split ∨
      event = RegionChangeEvent.Update RegionChangeReason.commitMerge) →
      (∀ oid, is_subscribed ob.observe_regions region.id = some oid →
        (on_region_changed ob region event).sched =
          ob.sched ++ [CdcTask.Deregister region.id oid
            (CdcError.regionNotFound region.id)]) ∧
      (is_subscribed ob.observe_regions region.id = none →
        on_region_changed ob region event = ob)) ∧
    (¬(event = RegionChangeEvent.Destroy ∨
      event = RegionChangeEvent.Update RegionChangeReason.split ∨
      event = RegionChangeEvent.Update RegionChangeReason.commitMerge) →
      on_region_changed ob region event = ob) := by
  constructor
  · intro hq
    have hrun : ∀ oid, is_subscribed ob.observe_regions region.id = some oid →
        (on_region_changed ob region event).sched =
          ob.sched ++ [CdcTask.Deregister region.id oid
            (CdcError.regionNotFound region.id)] := by
      intro oid hsub
      rcases hq with h | h | h <;> subst h <;>
        (unfold on_region_changed; rw [hsub])
    have hnop : is_subscribed ob.observe_regions region.id = none →
        on_region_changed ob region event = ob := by
      intro hsub
      rcases hq with h | h | h <;> subst h <;>
        (unfold on_region_changed; rw [hsub])
    exact ⟨hrun, hnop⟩
  · intro hnq
    cases event with
    | Destroy => exact absurd (Or.inl rfl) hnq
    | Update reason =>
      cases reason with
      | split => exact absurd (Or.inr (Or.inl rfl)) hnq
      | commitMerge => exact absurd (Or.inr (Or.inr rfl)) hnq
      | changePeer => rfl
      | prepareMerge => rfl
      | rollbackMerge => rfl
    | Create => rfl
    | UpdateBuckets n => rfl

/-- Witness for C6: a Destroy event on a subscribed region enqueues the
signal; a Create event on the same observer is a no-op. -/
theorem region_change_deregister_iff_witness :
    (on_region_changed obSub region1 RegionChangeEvent.Destroy).sched =
      obSub.sched ++ [CdcTask.Deregister region1.id oidA
        (CdcError.regionNotFound region1.id)] ∧
    on_region_changed obSub region1 RegionChangeEvent.Create = obSub :=
  ⟨((region_change_deregister_iff obSub region1 RegionChangeEvent.Destroy).1
      (Or.inl rfl)).1 oidA (by decide),
   (region_change_deregister_iff obSub region1 RegionChangeEvent.Create).2
      (by decide)⟩
